import Mathlib

set_option maxRecDepth 10000

/-!
Verification of the live-transcription audio segmentation pipeline of the
Live-Transcript-Local frontend (the `AudioRecorder` component).

The repository contains two copies of the recorder component.  The relevant
handlers are:

* the server-side live pipeline: the `processor.onaudioprocess` closure
  (first copy lines 378-477, second copy lines 1356-1455 — the two are
  identical), its stop handler (lines 484-501 / 1462-1479);
* the client-side live pipeline: `startClientSideLiveTranscription`
  (lines 1493-1636) with its own `onaudioprocess` closure and stop handler.

Modelling conventions:

* A JavaScript number that can be NaN is modelled as an `Option` value:
  `none` is NaN (or any non-finite value), `some q` a finite value.
  Every JS comparison involving NaN is false, which `jsGt`/`jsLt` encode.
* Audio samples and dB levels are modelled as exact rationals in the state
  machine; the level meter itself (RMS and `20*log10(rms + 1e-10)`), which
  uses `Math.sqrt`/`Math.log10`, is modelled over the reals.
* The `onaudioprocess` handler is a state transformer: it receives the block
  of samples together with the dB level the source computes for that block,
  and returns the new closure state plus the segment flushed on this block,
  if any.  `wsOpen` models `ws.readyState === WebSocket.OPEN` (it only
  gates the actual send and the `chunksSent` counter; the buffer reset in
  the flush branch happens regardless, exactly as in the source).
* Wall-clock quantities (`Date.now()` differences) are passed as parameters
  where the source reads them; the server-side handler computes
  `timeSinceLastSend` but never uses it in a decision, so it is omitted there.
* Logging, the debug-log throttle (`lastDebugLog`), and the unused VAD model
  loading have no effect on the decision logic and are omitted.
-/

/-- A JS number used for samples and levels: `none` models NaN / non-finite. -/
abbrev JSQ := Option ℚ

/-- JS `a > b` for a possibly-NaN left operand: false on NaN. -/
def jsGt (a : JSQ) (b : ℚ) : Bool :=
  match a with
  | none => false
  | some x => decide (b < x)

/-- JS `a < b` for a possibly-NaN left operand: false on NaN. -/
def jsLt (a : JSQ) (b : ℚ) : Bool :=
  match a with
  | none => false
  | some x => decide (x < b)

/-- Closure state of the server-side live pipeline's `onaudioprocess`
handler (source lines 348-360): the accumulated sample buffer and the VAD
counters.  `totalSamplesProcessed`, `lastDebugLog` and
`lastSentTranscriptionTime` only feed logging (or are never read in a
decision) and are not tracked. -/
structure SState where
  audioBuffer : List JSQ
  pauseFrames : ℕ
  silenceFrames : ℕ
  isCurrentlySpeaking : Bool
  chunksSent : ℕ
deriving DecidableEq

/-- Initial closure state (source lines 350-360). -/
def initS : SState :=
  { audioBuffer := [], pauseFrames := 0, silenceFrames := 0,
    isCurrentlySpeaking := false, chunksSent := 0 }

/-- Source line 408: `const speechThreshold = -28`. -/
def speechThreshold : ℚ := -28

/-- Source line 409: `const noiseThreshold = -40`. -/
def noiseThreshold : ℚ := -40

/-- Source line 358: `minPauseFramesForTranscription = 8`. -/
def minPauseFramesForTranscription : ℕ := 8

/-- Source line 359: `maxAudioDurationBeforeForceSend = 15 * audioContext.sampleRate`. -/
def maxAudioDurationBeforeForceSend (sampleRate : ℚ) : ℚ :=
  15 * sampleRate

/-- One invocation of the server-side `processor.onaudioprocess` handler
(source lines 378-477).  `db` is the level the handler computes for this
block (see `dbOf`); the block's samples are appended to the buffer
unconditionally (lines 390-394) before the VAD hysteresis runs
(lines 411-476).  The returned `Option` is the segment flushed on this
block: `some` exactly when the `shouldSend && audioBuffer.length > 4096`
branch is taken (lines 437-464); `wsOpen` gates only `chunksSent`. -/
def serverStep (sampleRate : ℚ) (wsOpen : Bool) (db : JSQ) (inputData : List JSQ)
    (st : SState) : SState × Option (List JSQ) :=
  let audioBuffer := st.audioBuffer ++ inputData
  if !st.isCurrentlySpeaking then
    if jsGt db speechThreshold then
      ({ st with audioBuffer := audioBuffer, isCurrentlySpeaking := true,
                 pauseFrames := 0, silenceFrames := 0 }, none)
    else
      ({ st with audioBuffer := audioBuffer }, none)
  else
    if jsLt db noiseThreshold then
      let pauseFrames := st.pauseFrames + 1
      let bufferDurationSeconds : ℚ := (audioBuffer.length : ℚ) / sampleRate
      let shouldSend :=
        (decide (minPauseFramesForTranscription ≤ pauseFrames) &&
          decide ((1 : ℚ) < bufferDurationSeconds)) ||
        (decide (30 ≤ pauseFrames) && decide ((1 / 2 : ℚ) < bufferDurationSeconds)) ||
        (decide (maxAudioDurationBeforeForceSend sampleRate < (audioBuffer.length : ℚ)) &&
          decide ((5 : ℚ) < bufferDurationSeconds))
      if shouldSend && decide (4096 < audioBuffer.length) then
        ({ audioBuffer := [], pauseFrames := 0, silenceFrames := 0,
           isCurrentlySpeaking := false,
           chunksSent := st.chunksSent + if wsOpen then 1 else 0 },
         some audioBuffer)
      else
        ({ st with audioBuffer := audioBuffer, pauseFrames := pauseFrames }, none)
    else if jsGt db speechThreshold then
      ({ st with audioBuffer := audioBuffer, pauseFrames := 0, silenceFrames := 0 }, none)
    else
      ({ st with audioBuffer := audioBuffer, pauseFrames := st.pauseFrames + 1 }, none)

/-- Feed a sequence of blocks (each a pair of computed level and samples)
through the server-side handler, collecting the per-block flush results. -/
def serverRun (sampleRate : ℚ) (wsOpen : Bool) :
    List (JSQ × List JSQ) → SState → SState × List (Option (List JSQ))
  | [], st => (st, [])
  | b :: bs, st =>
    let r := serverStep sampleRate wsOpen b.1 b.2 st
    let rest := serverRun sampleRate wsOpen bs r.1
    (rest.1, r.2 :: rest.2)

/-- The server-side stop handler (source lines 484-501 / 1462-1479): it
disconnects the audio nodes, closes the socket after a 500 ms delay (so
chunks already sent can finish processing) and stops the tracks.  It never
reads `audioBuffer` and performs no send, so the list of segments it
flushes is empty and the closure state is left as it was. -/
def serverStop (st : SState) : SState × List (List JSQ) :=
  (st, [])

/-- Result of one `transcribeAudioChunk` call as observed by the caller:
the resolved text, or a thrown error (`transcribeAudioChunk` rethrows its
errors, see `clientTranscription.ts` lines 108-111). -/
inductive TR where
  | ok (text : String)
  | err
deriving DecidableEq

/-- Closure state of `startClientSideLiveTranscription` (source lines
1502-1506) together with the transcript the flush branch appends to:
`messages` (only the text of each appended `TranscriptMessage` is tracked)
and `accumulatedTranscript` (the ref mirrored into state). -/
structure CState where
  audioBuffer : List JSQ
  pauseFrames : ℕ
  speechFrames : ℕ
  isCurrentlySpeaking : Bool
  messages : List String
  accumulatedTranscript : String
deriving DecidableEq

/-- Initial client-side closure state (source lines 1502-1506). -/
def initC : CState :=
  { audioBuffer := [], pauseFrames := 0, speechFrames := 0,
    isCurrentlySpeaking := false, messages := [], accumulatedTranscript := "" }

/-- Source line 1511: `const speechThreshold = -35`. -/
def cSpeechThreshold : ℚ := -35

/-- Source line 1512: `const noiseThreshold = -45`. -/
def cNoiseThreshold : ℚ := -45

/-- Source line 1507: `const minPauseFramesForTranscription = 5`. -/
def cMinPauseFramesForTranscription : ℕ := 5

/-- Source line 1508: `const minSpeechFramesBeforeSending = 10`. -/
def cMinSpeechFramesBeforeSending : ℕ := 10

/-- Source line 1509: `const maxAudioDurationBeforeForceSend = 10 * audioContext.sampleRate`. -/
def cMaxAudioDurationBeforeForceSend (sampleRate : ℚ) : ℚ :=
  10 * sampleRate

/-- One invocation of the client-side `processor.onaudioprocess` handler
(source lines 1514-1611).  `elapsedMs` is `Date.now() - lastSentTranscriptionTime`
at this invocation; `tr` is the outcome of the `transcribeAudioChunk` call
performed if the flush branch is taken (lines 1565-1598): on `ok t` with
non-empty `t` the text is appended to `messages` and to the accumulated
transcript (lines 1569-1592); on `ok ""` nothing is appended (line 1594);
on a thrown error the catch only logs (lines 1596-1598).  The buffer and
counters are reset whenever the flush branch runs (lines 1600-1603).  The
returned `Option` is the segment handed to transcription on this block. -/
def clientStep (sampleRate elapsedMs : ℚ) (tr : TR) (db : JSQ) (inputData : List JSQ)
    (st : CState) : CState × Option (List JSQ) :=
  let audioBuffer := st.audioBuffer ++ inputData
  if !st.isCurrentlySpeaking then
    if jsGt db cSpeechThreshold then
      ({ st with audioBuffer := audioBuffer, isCurrentlySpeaking := true,
                 pauseFrames := 0, speechFrames := 0 }, none)
    else
      ({ st with audioBuffer := audioBuffer }, none)
  else if jsGt db cSpeechThreshold then
    ({ st with audioBuffer := audioBuffer, speechFrames := st.speechFrames + 1,
               pauseFrames := 0 }, none)
  else if jsLt db cNoiseThreshold then
    let pauseFrames := st.pauseFrames + 1
    let shouldSend :=
      (decide (cMinPauseFramesForTranscription ≤ pauseFrames) &&
        decide (cMinSpeechFramesBeforeSending ≤ st.speechFrames)) ||
      decide (cMaxAudioDurationBeforeForceSend sampleRate < (audioBuffer.length : ℚ)) ||
      (decide ((8000 : ℚ) < elapsedMs) && decide (8192 < audioBuffer.length))
    if shouldSend && decide (4096 < audioBuffer.length) then
      let updated :=
        match tr with
        | TR.ok t =>
          if t = "" then st
          else
            { st with messages := st.messages ++ [t],
                      accumulatedTranscript :=
                        if st.accumulatedTranscript = "" then t
                        else st.accumulatedTranscript ++ " " ++ t }
        | TR.err => st
      ({ updated with audioBuffer := [], pauseFrames := 0, speechFrames := 0,
                      isCurrentlySpeaking := false },
       some audioBuffer)
    else
      ({ st with audioBuffer := audioBuffer, pauseFrames := pauseFrames }, none)
  else
    ({ st with audioBuffer := audioBuffer, pauseFrames := st.pauseFrames + 1,
               speechFrames := st.speechFrames + 1 }, none)

/-- Run of the client-side handler over blocks, each carrying the
transcription outcome used if that block flushes, the elapsed-time value,
the computed level and the samples. -/
def clientRun (sampleRate : ℚ) :
    List (TR × ℚ × JSQ × List JSQ) → CState → CState × List (Option (List JSQ))
  | [], st => (st, [])
  | b :: bs, st =>
    let r := clientStep sampleRate b.2.1 b.1 b.2.2.1 b.2.2.2 st
    let rest := clientRun sampleRate bs r.1
    (rest.1, r.2 :: rest.2)

/-- The client-side stop handler (source lines 1616-1627): disconnects,
closes the audio context, stops the tracks and saves the accumulated
transcript text.  It never reads `audioBuffer`: it flushes no segment. -/
def clientStop (st : CState) : List (List JSQ) × String :=
  ([], st.accumulatedTranscript)

/-- Truncation of a rational toward zero, as the ECMAScript ToInteger step
performs on a finite number. -/
def ratTrunc (q : ℚ) : ℤ :=
  if 0 ≤ q then ⌊q⌋ else -⌊-q⌋

/-- ECMAScript ToInt16, as performed by a store into an `Int16Array`:
NaN becomes 0; a finite value is truncated toward zero and wrapped into
16-bit two's complement. -/
def toInt16Val (v : JSQ) : ℤ :=
  match v with
  | none => 0
  | some q => (ratTrunc q + 2 ^ 15) % 2 ^ 16 - 2 ^ 15

/-- JS `Math.min b x` with possibly-NaN `x` (NaN propagates). -/
def jsMinQ (b : ℚ) (x : JSQ) : JSQ :=
  Option.map (fun y => min b y) x

/-- JS `Math.max b x` with possibly-NaN `x` (NaN propagates). -/
def jsMaxQ (b : ℚ) (x : JSQ) : JSQ :=
  Option.map (fun y => max b y) x

/-- JS multiplication by a constant with possibly-NaN operand. -/
def jsMulQ (x : JSQ) (c : ℚ) : JSQ :=
  Option.map (fun y => y * c) x

/-- The float-to-int16 transport conversion loop (source lines 444-449 /
1422-1427 / 1559-1563):
`let s = Math.max(-1, Math.min(1, audioBuffer[i])); int16Data[i] = s < 0 ? s * 0x8000 : s * 0x7fff;`
applied to every sample in order. -/
def toInt16 (buf : List JSQ) : List ℤ :=
  buf.map fun x =>
    let s := jsMaxQ (-1) (jsMinQ 1 x)
    toInt16Val (if jsLt s 0 then jsMulQ s 32768 else jsMulQ s 32767)

/-- The per-sample encoding exactly as the specification words it: the
sample is first clamped to `[-1, 1]`, then the result is scaled into the
int16 range, negative values by `0x8000` and non-negative ones by
`0x7fff` (the product truncated to an integer). -/
def encSpecSample (q : ℚ) : ℤ :=
  let s := max (-1) (min 1 q)
  if s < 0 then ratTrunc (s * 32768) else ratTrunc (s * 32767)

/-- A JS number in the real-valued level computation: `none` models NaN /
non-finite. -/
abbrev JSR := Option ℝ

/-- The sum-of-squares loop of the level computation (source lines 383-386:
`sum += inputData[i] * inputData[i]`); NaN propagates through the sum.
The source accumulates left-to-right from 0; real addition being
commutative and associative, the fold direction is immaterial. -/
def sumSquares : List JSR → JSR
  | [] => some 0
  | v :: vs =>
    match v with
    | none => none
    | some x =>
      match sumSquares vs with
      | none => none
      | some s => some (x * x + s)

open Classical in
/-- `Math.sqrt(sum / inputData.length)` (source line 387).  A zero-length
block gives `0 / 0 = NaN`; a negative argument would give NaN (it cannot
arise from a sum of squares, but the guard mirrors `Math.sqrt`). -/
noncomputable def rmsOf (samples : List JSR) : JSR :=
  match sumSquares samples with
  | none => none
  | some s =>
    if samples.length = 0 then none
    else if s / (samples.length : ℝ) < 0 then none
    else some (Real.sqrt (s / (samples.length : ℝ)))

open Classical in
/-- `20 * Math.log10(rms + 1e-10)` (source line 388).  A non-positive
argument to `log10` would not produce a finite value (it cannot arise,
since the rms is non-negative and the epsilon positive). -/
noncomputable def dbOf (samples : List JSR) : JSR :=
  match rmsOf samples with
  | none => none
  | some r =>
    if r + 1 / 10 ^ 10 ≤ 0 then none
    else some (20 * Real.logb 10 (r + 1 / 10 ^ 10))

/-! Concrete input scenarios used by counterexamples, witnesses and the
spec's worked scenario.  Levels are chosen consistently with the samples:
a constant-valued block of value `v` has rms `v`, hence level about
`20*log10 v` (for example `316/1000` is about `-10` dB, `1/1000` about
`-60` dB, and an all-zero block is exactly `-200` dB, see
`dbOf_replicate_zero`). -/

/-- A 4096-sample speech block at -10 dB (constant samples of about
`10^(-1/2)`), as in the spec's worked scenario. -/
def spBlock : JSQ × List JSQ :=
  (some (-10), List.replicate 4096 (some (316 / 1000)))

/-- A 4096-sample silent block at -50 dB (all-zero samples; -50 is the
level the spec's worked scenario assigns to its silent blocks). -/
def silBlock : JSQ × List JSQ :=
  (some (-50), List.replicate 4096 (some 0))

/-- The spec's worked scenario: 40 blocks of 4096 samples at 44100 Hz,
the first 15 speech at -10 dB, the remaining 25 silence at -50 dB.
(The spec's own text says "next 30 blocks" of silence, which contradicts
its "40 blocks" total and its "remaining 17 silent blocks" count; the
totals 40 and 17 force 25 silent blocks.) -/
def c4blocks : List (JSQ × List JSQ) :=
  [spBlock, spBlock, spBlock, spBlock, spBlock, spBlock, spBlock, spBlock,
   spBlock, spBlock, spBlock, spBlock, spBlock, spBlock, spBlock,
   silBlock, silBlock, silBlock, silBlock, silBlock, silBlock, silBlock,
   silBlock, silBlock, silBlock, silBlock, silBlock, silBlock, silBlock,
   silBlock, silBlock, silBlock, silBlock, silBlock, silBlock, silBlock,
   silBlock, silBlock, silBlock, silBlock]

/-- A 1000-sample speech block at -10 dB, used with sample rate 400 so
that the 15-second force-send ceiling (6000 samples) is crossed quickly. -/
def c1block : JSQ × List JSQ :=
  (some (-10), List.replicate 1000 (some (316 / 1000)))

/-- Ten consecutive speech blocks: uninterrupted speech whose accumulated
length (10000 samples) is far past the force-send ceiling `15 * 400 = 6000`
at sample rate 400, with duration `10000 / 400 = 25` seconds. -/
def c1blocks : List (JSQ × List JSQ) :=
  [c1block, c1block, c1block, c1block, c1block, c1block, c1block, c1block,
   c1block, c1block]

/-- A 4096-sample quiet block at about -60 dB (constant samples `1/1000`):
below the -28 dB speech threshold, so it does not wake the gate, but its
samples still land in the buffer. -/
def quietBlock : JSQ × List JSQ :=
  (some (-60), List.replicate 4096 (some (1 / 1000)))

/-- An all-zero 4096-sample block at exactly -200 dB. -/
def zeroBlock : JSQ × List JSQ :=
  (some (-200), List.replicate 4096 (some 0))

/-- One pre-onset quiet block, four speech blocks, eight silent blocks
(at sample rate 4096 one block is one second): the natural-pause rule
fires on block 13 with pause counter 8 and duration 13 s. -/
def c9blocks : List (JSQ × List JSQ) :=
  [quietBlock, spBlock, spBlock, spBlock, spBlock, zeroBlock, zeroBlock,
   zeroBlock, zeroBlock, zeroBlock, zeroBlock, zeroBlock, zeroBlock]

/-- The segment the run of `c9blocks` flushes on its 13th block: all 13
blocks' samples, including the first (pre-onset) quiet block's. -/
def c9seg : List JSQ :=
  List.replicate 4096 (some (1 / 1000)) ++
  List.replicate 4096 (some (316 / 1000)) ++ List.replicate 4096 (some (316 / 1000)) ++
  List.replicate 4096 (some (316 / 1000)) ++ List.replicate 4096 (some (316 / 1000)) ++
  List.replicate 4096 (some 0) ++ List.replicate 4096 (some 0) ++
  List.replicate 4096 (some 0) ++ List.replicate 4096 (some 0) ++
  List.replicate 4096 (some 0) ++ List.replicate 4096 (some 0) ++
  List.replicate 4096 (some 0) ++ List.replicate 4096 (some 0)

/-- A SPEAKING server-side state one silent block away from a
natural-pause flush: 4200 buffered samples, pause counter 7. -/
def flushReadyS : SState :=
  { audioBuffer := List.replicate 4200 (some 0), pauseFrames := 7,
    silenceFrames := 0, isCurrentlySpeaking := true, chunksSent := 0 }

/-- A SPEAKING client-side state one silent block away from a flush:
5000 buffered samples, pause counter 4, speech counter 12, with one chunk
already recorded. -/
def flushReadyC : CState :=
  { audioBuffer := List.replicate 5000 (some 0), pauseFrames := 4,
    speechFrames := 12, isCurrentlySpeaking := true, messages := ["hello"],
    accumulatedTranscript := "hello" }

/-- A SPEAKING client-side gate state with nonzero counters and a small
buffer, used to exercise the SPEAKING transitions at concrete inputs. -/
def c3spk : CState :=
  { audioBuffer := List.replicate 100 (some 0), pauseFrames := 3, speechFrames := 7,
    isCurrentlySpeaking := true, messages := [], accumulatedTranscript := "" }

/-- A client-side speech block: 400 samples at -10 dB; the attached
transcription outcome is an error (it is only consulted on a flush). -/
def cSpeechBlock : TR × ℚ × JSQ × List JSQ :=
  (TR.err, 0, some (-10), List.replicate 400 (some (316 / 1000)))

/-- A client-side silent block: 100 all-zero samples at -200 dB, with a
failing transcription outcome. -/
def cSilentBlock : TR × ℚ × JSQ × List JSQ :=
  (TR.err, 0, some (-200), List.replicate 100 (some 0))

/-- Thirteen speech blocks then five silent ones (sample rate 1000): the
flush fires on block 18 (pause counter 5, speech counter 12, buffer 5700
samples) and its `transcribeAudioChunk` call fails. -/
def c5blocks : List (TR × ℚ × JSQ × List JSQ) :=
  [cSpeechBlock, cSpeechBlock, cSpeechBlock, cSpeechBlock, cSpeechBlock,
   cSpeechBlock, cSpeechBlock, cSpeechBlock, cSpeechBlock, cSpeechBlock,
   cSpeechBlock, cSpeechBlock, cSpeechBlock,
   cSilentBlock, cSilentBlock, cSilentBlock, cSilentBlock, cSilentBlock]

/-! Theorems.  Each claim of the specification review is settled by one
named theorem (with a counterexample theorem and a witness where the
status requires them). -/

set_option maxHeartbeats 4000000 in
/-- Claim C4: for the worked scenario (40 blocks of 4096 samples at
44100 Hz, 15 speech blocks at -10 dB then silence at -50 dB), speech is
detected at block 1, the pause counter stands at 7 after block 22 and the
natural-pause rule fires on block 23 (pause counter 8, duration
94208/44100, about 2.14 s, exceeding 1 s) flushing exactly one segment of
23 * 4096 = 94208 samples; the long-silence rule (30 blocks) and the
force-send ceiling (15 s) are not met at that point, and none of the
remaining 17 silent blocks flushes anything. -/
theorem c4_scenario_flush_at_block_23 :
    ((serverRun 44100 true c4blocks initS).2).map (Option.map List.length) =
      List.replicate 22 none ++ some 94208 :: List.replicate 17 none ∧
    (serverRun 44100 true (List.take 1 c4blocks) initS).1.isCurrentlySpeaking = true ∧
    (serverRun 44100 true (List.take 22 c4blocks) initS).1.pauseFrames = 7 ∧
    (serverRun 44100 true (List.take 23 c4blocks) initS).1.pauseFrames = 0 ∧
    (serverRun 44100 true (List.take 23 c4blocks) initS).1.chunksSent = 1 ∧
    ((1 : ℚ) < (94208 : ℚ) / 44100 ∧ (94208 : ℚ) / 44100 < 22 / 10) ∧
    ¬ maxAudioDurationBeforeForceSend 44100 < (94208 : ℚ) ∧
    ¬ 30 ≤ minPauseFramesForTranscription := by
  refine ⟨?_, ?_, ?_, ?_, ?_, by norm_num, ?_, ?_⟩
  · norm_num [c4blocks, spBlock, silBlock, initS, serverRun, serverStep, jsGt, jsLt,
      speechThreshold, noiseThreshold, minPauseFramesForTranscription,
      maxAudioDurationBeforeForceSend]
    decide
  · norm_num [c4blocks, spBlock, silBlock, initS, serverRun, serverStep, jsGt, jsLt,
      speechThreshold, noiseThreshold, minPauseFramesForTranscription,
      maxAudioDurationBeforeForceSend]
  · norm_num [c4blocks, spBlock, silBlock, initS, serverRun, serverStep, jsGt, jsLt,
      speechThreshold, noiseThreshold, minPauseFramesForTranscription,
      maxAudioDurationBeforeForceSend]
  · norm_num [c4blocks, spBlock, silBlock, initS, serverRun, serverStep, jsGt, jsLt,
      speechThreshold, noiseThreshold, minPauseFramesForTranscription,
      maxAudioDurationBeforeForceSend]
  · norm_num [c4blocks, spBlock, silBlock, initS, serverRun, serverStep, jsGt, jsLt,
      speechThreshold, noiseThreshold, minPauseFramesForTranscription,
      maxAudioDurationBeforeForceSend]
  · norm_num [maxAudioDurationBeforeForceSend]
  · norm_num [minPauseFramesForTranscription]

set_option maxHeartbeats 2000000 in
/-- Claim C1, counterexample: ten consecutive speech blocks at -10 dB
(sample rate 400, 1000 samples each) keep the pause counter at 0 and push
the accumulated length to 10000 samples — past the force-send ceiling
`15 * 400 = 6000` from block 7 on, with duration `25 > 5` seconds and
more than 4096 samples — yet no block ever flushes: the overflow rule is
only evaluated inside the below-silence-threshold branch, which
uninterrupted speech never enters. -/
theorem c1_uninterrupted_speech_no_flush_counterexample :
    (serverRun 400 true c1blocks initS).2 =
      [none, none, none, none, none, none, none, none, none, none] ∧
    (serverRun 400 true c1blocks initS).1.pauseFrames = 0 ∧
    (serverRun 400 true c1blocks initS).1.audioBuffer.length = 10000 ∧
    (serverRun 400 true (List.take 7 c1blocks) initS).1.audioBuffer.length = 7000 ∧
    maxAudioDurationBeforeForceSend 400 < (7000 : ℚ) ∧
    (5 : ℚ) < (7000 : ℚ) / 400 := by
  refine ⟨?_, ?_, ?_, ?_, ?_, ?_⟩
  · norm_num [c1blocks, c1block, initS, serverRun, serverStep, jsGt, jsLt,
      speechThreshold, noiseThreshold, minPauseFramesForTranscription,
      maxAudioDurationBeforeForceSend]
  · norm_num [c1blocks, c1block, initS, serverRun, serverStep, jsGt, jsLt,
      speechThreshold, noiseThreshold, minPauseFramesForTranscription,
      maxAudioDurationBeforeForceSend]
  · norm_num [c1blocks, c1block, initS, serverRun, serverStep, jsGt, jsLt,
      speechThreshold, noiseThreshold, minPauseFramesForTranscription,
      maxAudioDurationBeforeForceSend]
  · norm_num [c1blocks, c1block, initS, serverRun, serverStep, jsGt, jsLt,
      speechThreshold, noiseThreshold, minPauseFramesForTranscription,
      maxAudioDurationBeforeForceSend]
  · norm_num [maxAudioDurationBeforeForceSend]
  · norm_num

/-- Claim C1, amended: uninterrupted speech never flushes — a block whose
level exceeds the speech threshold always leaves the flush output empty —
and the overflow force-flush instead fires on the next block whose level
drops below the silence threshold while the gate is SPEAKING, provided the
accumulated sample count exceeds the 15-second ceiling, the accumulated
duration exceeds 5 seconds and the buffer holds more than one block
(4096 samples). -/
theorem c1_overflow_flush_amended (sampleRate : ℚ) (wsOpen : Bool) (db : JSQ)
    (inputData : List JSQ) (st : SState) :
    (jsGt db speechThreshold = true →
      (serverStep sampleRate wsOpen db inputData st).2 = none) ∧
    (st.isCurrentlySpeaking = true → jsLt db noiseThreshold = true →
      maxAudioDurationBeforeForceSend sampleRate < ((st.audioBuffer ++ inputData).length : ℚ) →
      (5 : ℚ) < ((st.audioBuffer ++ inputData).length : ℚ) / sampleRate →
      4096 < (st.audioBuffer ++ inputData).length →
      (serverStep sampleRate wsOpen db inputData st).2 = some (st.audioBuffer ++ inputData)) := by
  constructor
  · intro h
    cases db with
    | none => simp [jsGt] at h
    | some x =>
      have hx : (-28 : ℚ) < x := by
        simpa [jsGt, speechThreshold, decide_eq_true_eq] using h
      have hlt : jsLt (some x) noiseThreshold = false := by
        simp only [jsLt, noiseThreshold, decide_eq_false_iff_not]
        intro hc
        linarith
      simp only [serverStep]
      cases hst : st.isCurrentlySpeaking <;>
        simp [hst, hlt, h]
  · intro hs hlt hceil hdur hfloor
    simp only [List.length_append, Nat.cast_add] at hceil hdur hfloor
    simp only [serverStep, hs, hlt]
    simp [hceil, hdur, hfloor]

/-- Witness for `c1_overflow_flush_amended` at concrete inputs: a speech
block over a fresh state flushes nothing, and a below-silence block over a
SPEAKING state holding 6500 samples (past the ceiling 6000 at sample rate
400, duration 16.75 s) flushes the whole buffer. -/
theorem c1_overflow_flush_amended_witness :
    (serverStep 400 true (some (-10)) (List.replicate 1000 (some (316 / 1000))) initS).2 = none ∧
    (serverStep 400 true (some (-50)) (List.replicate 200 (some 0))
        { audioBuffer := List.replicate 6500 (some 0), pauseFrames := 0, silenceFrames := 0,
          isCurrentlySpeaking := true, chunksSent := 0 }).2 =
      some (List.replicate 6500 (some 0) ++ List.replicate 200 (some 0)) := by
  constructor
  · exact (c1_overflow_flush_amended 400 true (some (-10)) _ initS).1
      (by norm_num [jsGt, speechThreshold])
  · exact (c1_overflow_flush_amended 400 true (some (-50)) _ _).2 rfl
      (by norm_num [jsLt, noiseThreshold])
      (by norm_num [maxAudioDurationBeforeForceSend])
      (by norm_num)
      (by norm_num)

set_option maxHeartbeats 1000000 in
/-- Claim C2, counterexample: after one speech block the session's
accumulator holds 1000 samples, yet the stop handler flushes nothing —
the pending samples are dropped, not handed to transcription. -/
theorem c2_stop_drops_pending_counterexample :
    (serverStop (serverRun 400 true (List.take 1 c1blocks) initS).1).2 = [] ∧
    (serverRun 400 true (List.take 1 c1blocks) initS).1.audioBuffer.length = 1000 := by
  constructor
  · rfl
  · norm_num [c1blocks, c1block, initS, serverRun, serverStep, jsGt, jsLt,
      speechThreshold, noiseThreshold]

/-- Claim C2, amended: stopping never flushes the accumulator — the
server-side stop handler leaves the state untouched and emits no segment,
and the client-side stop handler emits no segment either, only saving the
transcript text accumulated so far. -/
theorem c2_stop_behavior_amended (st : SState) (cst : CState) :
    (serverStop st).1 = st ∧ (serverStop st).2 = [] ∧
    (clientStop cst).1 = [] ∧ (clientStop cst).2 = cst.accumulatedTranscript :=
  ⟨rfl, rfl, rfl, rfl⟩

/-- Claim C3: the gate's per-block transitions (client-side pipeline,
which carries both counters).  SILENT + level above the speech threshold:
onset, all counters zeroed.  SILENT + level not above it: gate state and
counters unchanged.  SPEAKING + level above the speech threshold: pause
counter reset to 0, speech counter incremented.  SPEAKING + level below
the silence threshold: pause counter incremented (and when that very
increment makes the controller flush, the post-flush reset zeroes it, as
the controller prescribes).  SPEAKING + level in the ambiguous zone
(neither above the speech threshold nor below the silence threshold):
still SPEAKING, pause counter incremented. -/
theorem c3_gate_transitions (sampleRate elapsedMs : ℚ) (tr : TR) (db : JSQ)
    (inputData : List JSQ) (st : CState) :
    (st.isCurrentlySpeaking = false → jsGt db cSpeechThreshold = true →
      (clientStep sampleRate elapsedMs tr db inputData st).1.isCurrentlySpeaking = true ∧
      (clientStep sampleRate elapsedMs tr db inputData st).1.pauseFrames = 0 ∧
      (clientStep sampleRate elapsedMs tr db inputData st).1.speechFrames = 0) ∧
    (st.isCurrentlySpeaking = false → jsGt db cSpeechThreshold = false →
      (clientStep sampleRate elapsedMs tr db inputData st).1.isCurrentlySpeaking = false ∧
      (clientStep sampleRate elapsedMs tr db inputData st).1.pauseFrames = st.pauseFrames ∧
      (clientStep sampleRate elapsedMs tr db inputData st).1.speechFrames = st.speechFrames) ∧
    (st.isCurrentlySpeaking = true → jsGt db cSpeechThreshold = true →
      (clientStep sampleRate elapsedMs tr db inputData st).1.isCurrentlySpeaking = true ∧
      (clientStep sampleRate elapsedMs tr db inputData st).1.pauseFrames = 0 ∧
      (clientStep sampleRate elapsedMs tr db inputData st).1.speechFrames = st.speechFrames + 1) ∧
    (st.isCurrentlySpeaking = true → jsGt db cSpeechThreshold = false →
      jsLt db cNoiseThreshold = true →
      ((clientStep sampleRate elapsedMs tr db inputData st).2 = none ∧
        (clientStep sampleRate elapsedMs tr db inputData st).1.isCurrentlySpeaking = true ∧
        (clientStep sampleRate elapsedMs tr db inputData st).1.pauseFrames = st.pauseFrames + 1) ∨
      ((clientStep sampleRate elapsedMs tr db inputData st).2 = some (st.audioBuffer ++ inputData) ∧
        (clientStep sampleRate elapsedMs tr db inputData st).1.pauseFrames = 0)) ∧
    (st.isCurrentlySpeaking = true → jsGt db cSpeechThreshold = false →
      jsLt db cNoiseThreshold = false →
      (clientStep sampleRate elapsedMs tr db inputData st).1.isCurrentlySpeaking = true ∧
      (clientStep sampleRate elapsedMs tr db inputData st).1.pauseFrames = st.pauseFrames + 1 ∧
      (clientStep sampleRate elapsedMs tr db inputData st).1.speechFrames = st.speechFrames + 1) := by
  refine ⟨?_, ?_, ?_, ?_, ?_⟩
  · intro hns hgt
    simp [clientStep, hns, hgt]
  · intro hns hgt
    simp [clientStep, hns, hgt]
  · intro hs hgt
    simp [clientStep, hs, hgt]
  · intro hs hgt hlt
    simp only [clientStep, hs, hgt, hlt]
    simp only [Bool.not_true, Bool.false_eq_true, if_false]
    split_ifs with hcond <;>
      first
        | exact Or.inl ⟨rfl, rfl, rfl⟩
        | exact Or.inr ⟨rfl, rfl⟩
  · intro hs hgt hlt
    simp [clientStep, hs, hgt, hlt]

/-- Witness for `c3_gate_transitions`: each transition instantiated at a
concrete state and block level (onset at -10 dB from SILENT; -50 dB kept
ignored while SILENT; speech, silence and ambiguous -40 dB blocks over a
SPEAKING state with pause counter 3 and speech counter 7). -/
theorem c3_gate_transitions_witness :
    ((clientStep 1000 0 TR.err (some (-10)) [] initC).1.isCurrentlySpeaking = true ∧
      (clientStep 1000 0 TR.err (some (-10)) [] initC).1.pauseFrames = 0 ∧
      (clientStep 1000 0 TR.err (some (-10)) [] initC).1.speechFrames = 0) ∧
    ((clientStep 1000 0 TR.err (some (-50)) [] initC).1.isCurrentlySpeaking = false ∧
      (clientStep 1000 0 TR.err (some (-50)) [] initC).1.pauseFrames = initC.pauseFrames ∧
      (clientStep 1000 0 TR.err (some (-50)) [] initC).1.speechFrames = initC.speechFrames) ∧
    ((clientStep 1000 0 TR.err (some (-10)) [] c3spk).1.isCurrentlySpeaking = true ∧
      (clientStep 1000 0 TR.err (some (-10)) [] c3spk).1.pauseFrames = 0 ∧
      (clientStep 1000 0 TR.err (some (-10)) [] c3spk).1.speechFrames = c3spk.speechFrames + 1) ∧
    (((clientStep 1000 0 TR.err (some (-50)) [] c3spk).2 = none ∧
        (clientStep 1000 0 TR.err (some (-50)) [] c3spk).1.isCurrentlySpeaking = true ∧
        (clientStep 1000 0 TR.err (some (-50)) [] c3spk).1.pauseFrames = c3spk.pauseFrames + 1) ∨
      ((clientStep 1000 0 TR.err (some (-50)) [] c3spk).2 = some (c3spk.audioBuffer ++ []) ∧
        (clientStep 1000 0 TR.err (some (-50)) [] c3spk).1.pauseFrames = 0)) ∧
    ((clientStep 1000 0 TR.err (some (-40)) [] c3spk).1.isCurrentlySpeaking = true ∧
      (clientStep 1000 0 TR.err (some (-40)) [] c3spk).1.pauseFrames = c3spk.pauseFrames + 1 ∧
      (clientStep 1000 0 TR.err (some (-40)) [] c3spk).1.speechFrames = c3spk.speechFrames + 1) := by
  refine ⟨?_, ?_, ?_, ?_, ?_⟩
  · exact (c3_gate_transitions 1000 0 TR.err (some (-10)) [] initC).1 rfl
      (by norm_num [jsGt, cSpeechThreshold])
  · exact (c3_gate_transitions 1000 0 TR.err (some (-50)) [] initC).2.1 rfl
      (by norm_num [jsGt, cSpeechThreshold])
  · exact (c3_gate_transitions 1000 0 TR.err (some (-10)) [] c3spk).2.2.1 rfl
      (by norm_num [jsGt, cSpeechThreshold])
  · exact (c3_gate_transitions 1000 0 TR.err (some (-50)) [] c3spk).2.2.2.1 rfl
      (by norm_num [jsGt, cSpeechThreshold]) (by norm_num [jsLt, cNoiseThreshold])
  · exact (c3_gate_transitions 1000 0 TR.err (some (-40)) [] c3spk).2.2.2.2 rfl
      (by norm_num [jsGt, cSpeechThreshold]) (by norm_num [jsLt, cNoiseThreshold])

/-- Claim C10: a segment can only be flushed while processing a block
whose level is strictly below the silence threshold with the gate
SPEAKING; blocks classified as speech or as ambiguous never flush, in
either pipeline, whatever the rest of the state. -/
theorem c10_flush_only_on_silent_block (sampleRate : ℚ) (wsOpen : Bool) (db : JSQ)
    (inputData : List JSQ) (st : SState) (seg : List JSQ)
    (elapsedMs : ℚ) (tr : TR) (cst : CState) (cseg : List JSQ) :
    ((serverStep sampleRate wsOpen db inputData st).2 = some seg →
      st.isCurrentlySpeaking = true ∧ jsLt db noiseThreshold = true) ∧
    ((clientStep sampleRate elapsedMs tr db inputData cst).2 = some cseg →
      cst.isCurrentlySpeaking = true ∧ jsLt db cNoiseThreshold = true ∧
      jsGt db cSpeechThreshold = false) := by
  constructor
  · intro h
    cases hs : st.isCurrentlySpeaking with
    | false =>
      exfalso
      simp only [serverStep, hs] at h
      split_ifs at h <;> simp_all
    | true =>
      cases hlt : jsLt db noiseThreshold with
      | false =>
        exfalso
        simp only [serverStep, hs, hlt] at h
        split_ifs at h <;> simp_all
      | true => exact ⟨rfl, rfl⟩
  · intro h
    cases hs : cst.isCurrentlySpeaking with
    | false =>
      exfalso
      simp only [clientStep, hs] at h
      split_ifs at h <;> simp_all
    | true =>
      cases hgt : jsGt db cSpeechThreshold with
      | true =>
        exfalso
        simp only [clientStep, hs, hgt] at h
        split_ifs at h <;> simp_all
      | false =>
        cases hlt : jsLt db cNoiseThreshold with
        | false =>
          exfalso
          simp only [clientStep, hs, hgt, hlt] at h
          split_ifs at h <;> simp_all
        | true => exact ⟨rfl, rfl, rfl⟩

/-- Witness for `c10_flush_only_on_silent_block`: concrete flushes (a -50 dB
block over `flushReadyS`, resp. `flushReadyC`) do occur, and the theorem
yields the SPEAKING/below-silence classification of those blocks. -/
theorem c10_flush_only_on_silent_block_witness :
    (flushReadyS.isCurrentlySpeaking = true ∧ jsLt (some (-50)) noiseThreshold = true) ∧
    (flushReadyC.isCurrentlySpeaking = true ∧ jsLt (some (-50)) cNoiseThreshold = true ∧
      jsGt (some (-50)) cSpeechThreshold = false) := by
  constructor
  · exact (c10_flush_only_on_silent_block 1000 true (some (-50))
      (List.replicate 100 (some 0)) flushReadyS
      (flushReadyS.audioBuffer ++ List.replicate 100 (some 0)) 0 TR.err initC []).1
      (by norm_num [serverStep, flushReadyS, jsLt, jsGt, noiseThreshold, speechThreshold,
        minPauseFramesForTranscription, maxAudioDurationBeforeForceSend])
  · exact (c10_flush_only_on_silent_block 1000 true (some (-50))
      (List.replicate 100 (some 0)) flushReadyS
      (flushReadyS.audioBuffer ++ List.replicate 100 (some 0)) 0 TR.err flushReadyC
      (flushReadyC.audioBuffer ++ List.replicate 100 (some 0))).2
      (by norm_num [clientStep, flushReadyC, jsLt, jsGt, cNoiseThreshold, cSpeechThreshold,
        cMinPauseFramesForTranscription, cMinSpeechFramesBeforeSending,
        cMaxAudioDurationBeforeForceSend])

set_option maxHeartbeats 2000000 in
/-- Claim C9, counterexample: a quiet block arrives while the gate is still
SILENT (the gate remains SILENT after it), yet when the utterance that
starts on block 2 is flushed on block 13, the flushed segment begins with
that pre-onset block's samples — accumulation is unconditional, so blocks
received before speech onset are part of the flushed segment. -/
theorem c9_pre_onset_samples_counterexample :
    (serverRun 4096 true (List.take 1 c9blocks) initS).1.isCurrentlySpeaking = false ∧
    (serverRun 4096 true c9blocks initS).2 =
      [none, none, none, none, none, none, none, none, none, none, none, none,
       some c9seg] ∧
    List.take 4096 c9seg = List.replicate 4096 (some (1 / 1000)) := by
  refine ⟨?_, ?_, ?_⟩
  · norm_num [c9blocks, quietBlock, initS, serverRun, serverStep, jsGt, jsLt,
      speechThreshold, noiseThreshold]
  · norm_num [c9blocks, quietBlock, spBlock, zeroBlock, c9seg, initS, serverRun, serverStep,
      jsGt, jsLt, speechThreshold, noiseThreshold, minPauseFramesForTranscription,
      maxAudioDurationBeforeForceSend]
  · norm_num [c9seg, List.take_append, List.take_replicate]

/-- Claim C9, amended: a flushed segment consists of exactly every sample
received since the previous flush (or session start), in arrival order —
including blocks that arrived while the gate was SILENT, since the handler
appends every block to the buffer before the VAD runs and only a flush
empties the buffer. -/
theorem c9_segment_contents_amended (sampleRate : ℚ) (wsOpen : Bool) (db : JSQ)
    (inputData : List JSQ) (st : SState) (seg : List JSQ) :
    ((serverStep sampleRate wsOpen db inputData st).2 = some seg →
      seg = st.audioBuffer ++ inputData) ∧
    ((serverStep sampleRate wsOpen db inputData st).2 = none →
      (serverStep sampleRate wsOpen db inputData st).1.audioBuffer =
        st.audioBuffer ++ inputData) := by
  constructor
  · intro h
    simp only [serverStep] at h
    split_ifs at h <;> simp_all
  · intro h
    simp only [serverStep] at h ⊢
    split_ifs at h ⊢ <;> simp_all

/-- Witness for `c9_segment_contents_amended`: over `flushReadyS` a -50 dB
block flushes the whole accumulated buffer, and over `initS` a speech
block flushes nothing while its samples land in the buffer. -/
theorem c9_segment_contents_amended_witness :
    List.replicate 4200 (some (0 : ℚ)) ++ List.replicate 100 (some 0) =
      flushReadyS.audioBuffer ++ List.replicate 100 (some 0) ∧
    (serverStep 1000 true (some (-10)) (List.replicate 100 (some 0)) initS).1.audioBuffer =
      initS.audioBuffer ++ List.replicate 100 (some 0) := by
  constructor
  · exact (c9_segment_contents_amended 1000 true (some (-50)) (List.replicate 100 (some 0))
      flushReadyS (List.replicate 4200 (some 0) ++ List.replicate 100 (some 0))).1
      (by norm_num [serverStep, flushReadyS, jsLt, jsGt, noiseThreshold, speechThreshold,
        minPauseFramesForTranscription, maxAudioDurationBeforeForceSend])
  · exact (c9_segment_contents_amended 1000 true (some (-10)) (List.replicate 100 (some 0))
      initS (initS.audioBuffer ++ List.replicate 100 (some 0))).2
      (by norm_num [serverStep, initS, jsLt, jsGt, noiseThreshold, speechThreshold])

set_option maxHeartbeats 2000000 in
/-- Claim C5, counterexample: in the run of `c5blocks` a 5700-sample
segment is flushed on block 18 and its `transcribeAudioChunk` call throws;
the catch only logs, so the session records nothing at all — no
error-marker chunk occupies the failed segment's slot, the message list
and the accumulated transcript stay empty. -/
theorem c5_failed_transcription_counterexample :
    ((clientRun 1000 c5blocks initC).2).map (Option.map List.length) =
      [none, none, none, none, none, none, none, none, none, none, none, none,
       none, none, none, none, none, some 5700] ∧
    (clientRun 1000 c5blocks initC).1.messages = [] ∧
    (clientRun 1000 c5blocks initC).1.accumulatedTranscript = "" := by
  refine ⟨?_, ?_, ?_⟩
  · norm_num [c5blocks, cSpeechBlock, cSilentBlock, initC, clientRun, clientStep, jsGt, jsLt,
      cSpeechThreshold, cNoiseThreshold, cMinPauseFramesForTranscription,
      cMinSpeechFramesBeforeSending, cMaxAudioDurationBeforeForceSend]
  · norm_num [c5blocks, cSpeechBlock, cSilentBlock, initC, clientRun, clientStep, jsGt, jsLt,
      cSpeechThreshold, cNoiseThreshold, cMinPauseFramesForTranscription,
      cMinSpeechFramesBeforeSending, cMaxAudioDurationBeforeForceSend]
  · norm_num [c5blocks, cSpeechBlock, cSilentBlock, initC, clientRun, clientStep, jsGt, jsLt,
      cSpeechThreshold, cNoiseThreshold, cMinPauseFramesForTranscription,
      cMinSpeechFramesBeforeSending, cMaxAudioDurationBeforeForceSend]

/-- Claim C5, amended: when a flushed segment's transcription call throws,
the failure is only logged — no chunk (error marker or otherwise) is
recorded for that segment, the message list and accumulated transcript are
unchanged — while the buffer, counters and gate are reset exactly as on
success, so subsequent segments continue to be processed normally. -/
theorem c5_failure_drops_chunk_amended (sampleRate elapsedMs : ℚ) (db : JSQ)
    (inputData : List JSQ) (st : CState) (seg : List JSQ) :
    (clientStep sampleRate elapsedMs TR.err db inputData st).2 = some seg →
      (clientStep sampleRate elapsedMs TR.err db inputData st).1.messages = st.messages ∧
      (clientStep sampleRate elapsedMs TR.err db inputData st).1.accumulatedTranscript =
        st.accumulatedTranscript ∧
      (clientStep sampleRate elapsedMs TR.err db inputData st).1.audioBuffer = [] ∧
      (clientStep sampleRate elapsedMs TR.err db inputData st).1.pauseFrames = 0 ∧
      (clientStep sampleRate elapsedMs TR.err db inputData st).1.speechFrames = 0 ∧
      (clientStep sampleRate elapsedMs TR.err db inputData st).1.isCurrentlySpeaking = false := by
  intro h
  simp only [clientStep] at h ⊢
  split_ifs at h ⊢ <;> simp_all

/-- Witness for `c5_failure_drops_chunk_amended`: a -50 dB block over
`flushReadyC` flushes a segment whose transcription fails; the recorded
chunks and transcript are exactly the prior ones. -/
theorem c5_failure_drops_chunk_amended_witness :
    (clientStep 1000 0 TR.err (some (-50)) (List.replicate 100 (some 0)) flushReadyC).1.messages =
      flushReadyC.messages ∧
    (clientStep 1000 0 TR.err (some (-50)) (List.replicate 100 (some 0))
        flushReadyC).1.accumulatedTranscript = flushReadyC.accumulatedTranscript ∧
    (clientStep 1000 0 TR.err (some (-50)) (List.replicate 100 (some 0))
        flushReadyC).1.audioBuffer = [] ∧
    (clientStep 1000 0 TR.err (some (-50)) (List.replicate 100 (some 0))
        flushReadyC).1.pauseFrames = 0 ∧
    (clientStep 1000 0 TR.err (some (-50)) (List.replicate 100 (some 0))
        flushReadyC).1.speechFrames = 0 ∧
    (clientStep 1000 0 TR.err (some (-50)) (List.replicate 100 (some 0))
        flushReadyC).1.isCurrentlySpeaking = false := by
  exact c5_failure_drops_chunk_amended 1000 0 (some (-50)) (List.replicate 100 (some 0))
    flushReadyC (flushReadyC.audioBuffer ++ List.replicate 100 (some 0))
    (by norm_num [clientStep, flushReadyC, jsLt, jsGt, cNoiseThreshold, cSpeechThreshold,
      cMinPauseFramesForTranscription, cMinSpeechFramesBeforeSending,
      cMaxAudioDurationBeforeForceSend])

/-- A NaN sample anywhere in the block makes the whole sum of squares NaN. -/
theorem sumSquares_eq_none_of_mem (xs : List JSR) (hx : none ∈ xs) :
    sumSquares xs = none := by
  induction xs with
  | nil => simp at hx
  | cons v vs ih =>
    rcases List.mem_cons.mp hx with h | h
    · simp [sumSquares, ← h]
    · cases v <;> simp [sumSquares, ih h]

/-- A NaN sample anywhere in the block makes the computed level NaN. -/
theorem dbOf_eq_none_of_mem (xs : List JSR) (hx : none ∈ xs) :
    dbOf xs = none := by
  simp [dbOf, rmsOf, sumSquares_eq_none_of_mem xs hx]

set_option maxHeartbeats 1000000 in
/-- Claim C6, counterexample: a block containing a NaN sample is not
sanitized — the level computation returns NaN (the NaN poisons the RMS
math), and the NaN sample itself is appended to the segment buffer
(here: the buffer after the block is exactly `[none]`). -/
theorem c6_nan_counterexample :
    dbOf [some 0, none] = none ∧
    (serverStep 44100 true none [none] initS).1.audioBuffer = [none] ∧
    (serverStep 44100 true none [none] initS).1.isCurrentlySpeaking = false := by
  refine ⟨?_, ?_, ?_⟩
  · exact dbOf_eq_none_of_mem [some 0, none] (by simp)
  · norm_num [serverStep, initS, jsGt, jsLt]
  · norm_num [serverStep, initS, jsGt, jsLt]

/-- Claim C6, amended: nothing sanitizes non-finite samples.  A NaN sample
makes the computed level NaN; every block's samples (NaN included) are
appended to the buffer unchanged; and since every comparison against NaN
is false, a NaN-level block wakes nothing while SILENT and, while
SPEAKING, falls into the ambiguous branch: pause counter incremented, no
flush. -/
theorem c6_nan_propagation_amended (xs : List JSR) (sampleRate : ℚ) (wsOpen : Bool)
    (inputData : List JSQ) (st : SState) :
    (none ∈ xs → dbOf xs = none) ∧
    ((serverStep sampleRate wsOpen none inputData st).1.audioBuffer =
        st.audioBuffer ++ inputData ∧
      (serverStep sampleRate wsOpen none inputData st).2 = none) ∧
    (st.isCurrentlySpeaking = false →
      (serverStep sampleRate wsOpen none inputData st).1.isCurrentlySpeaking = false) ∧
    (st.isCurrentlySpeaking = true →
      (serverStep sampleRate wsOpen none inputData st).1.pauseFrames = st.pauseFrames + 1 ∧
      (serverStep sampleRate wsOpen none inputData st).1.isCurrentlySpeaking = true) := by
  refine ⟨fun hx => dbOf_eq_none_of_mem xs hx, ?_, ?_, ?_⟩
  · cases hs : st.isCurrentlySpeaking <;> simp [serverStep, hs, jsGt, jsLt]
  · intro hs
    simp [serverStep, hs, jsGt]
  · intro hs
    simp [serverStep, hs, jsGt, jsLt]

/-- Witness for `c6_nan_propagation_amended` at a NaN-bearing block over a
SPEAKING state. -/
theorem c6_nan_propagation_amended_witness :
    dbOf [some 0, none, some 1] = none ∧
    (serverStep 1000 true none [none] flushReadyS).1.pauseFrames =
      flushReadyS.pauseFrames + 1 ∧
    (serverStep 1000 true none [none] flushReadyS).1.isCurrentlySpeaking = true ∧
    (serverStep 1000 true none [none] flushReadyS).1.audioBuffer =
      flushReadyS.audioBuffer ++ [none] ∧
    (serverStep 1000 true none [none] flushReadyS).2 = none := by
  have h := c6_nan_propagation_amended [some 0, none, some 1] 1000 true [none] flushReadyS
  exact ⟨h.1 (by simp), (h.2.2.2 rfl).1, (h.2.2.2 rfl).2, h.2.1.1, h.2.1.2⟩

/-- Truncation toward zero of a non-negative rational is the floor, and
stays within a non-negative upper bound. -/
theorem ratTrunc_nonneg_bounds (q : ℚ) (b : ℤ) (h0 : 0 ≤ q) (hb : q ≤ (b : ℚ)) :
    0 ≤ ratTrunc q ∧ ratTrunc q ≤ b := by
  rw [ratTrunc, if_pos h0]
  constructor
  · exact Int.floor_nonneg.mpr h0
  · calc ⌊q⌋ ≤ ⌊(b : ℚ)⌋ := Int.floor_le_floor hb
    _ = b := Int.floor_intCast b

/-- Truncation toward zero of a negative rational stays within a negative
lower bound. -/
theorem ratTrunc_neg_bounds (q : ℚ) (b : ℤ) (hq : q < 0) (hb : (b : ℚ) ≤ q) :
    b ≤ ratTrunc q ∧ ratTrunc q ≤ 0 := by
  rw [ratTrunc, if_neg (not_le.mpr hq)]
  constructor
  · have h1 : ⌊-q⌋ ≤ -b := by
      calc ⌊-q⌋ ≤ ⌊((-b : ℤ) : ℚ)⌋ := Int.floor_le_floor (by push_cast; linarith)
      _ = -b := Int.floor_intCast (-b)
    omega
  · have h2 : 0 ≤ ⌊-q⌋ := Int.floor_nonneg.mpr (by linarith)
    omega

/-- 16-bit two's-complement wrap is the identity on the int16 range. -/
theorem int16_wrap_eq (n : ℤ) (h1 : -32768 ≤ n) (h2 : n ≤ 32767) :
    (n + 2 ^ 15) % 2 ^ 16 - 2 ^ 15 = n := by
  omega

/-- One sample of the source conversion loop agrees with the
specification's clamp-then-scale description. -/
theorem toInt16_elem (q : ℚ) :
    toInt16Val (if jsLt (jsMaxQ (-1) (jsMinQ 1 (some q))) 0
        then jsMulQ (jsMaxQ (-1) (jsMinQ 1 (some q))) 32768
        else jsMulQ (jsMaxQ (-1) (jsMinQ 1 (some q))) 32767) = encSpecSample q := by
  have hclamp : jsMaxQ (-1) (jsMinQ 1 (some q)) = some (max (-1) (min 1 q)) := rfl
  set m : ℚ := max (-1) (min 1 q) with hm
  have hm1 : -1 ≤ m := le_max_left _ _
  have hm2 : m ≤ 1 := max_le (by norm_num) (min_le_left _ _)
  rw [hclamp]
  by_cases hneg : m < 0
  · have hL : jsLt (some m) 0 = true := by simp [jsLt, hneg]
    rw [if_pos hL]
    have hbounds := ratTrunc_neg_bounds (m * 32768) (-32768) (by nlinarith)
      (by push_cast; nlinarith)
    simp only [jsMulQ, Option.map, toInt16Val, encSpecSample]
    rw [if_pos hneg, int16_wrap_eq _ (by omega) (by omega)]
  · have hL : jsLt (some m) 0 = false := by simp [jsLt, hneg]
    rw [if_neg (by simp [hL])]
    have h0 : 0 ≤ m := not_lt.mp hneg
    have hbounds := ratTrunc_nonneg_bounds (m * 32767) 32767 (by positivity)
      (by push_cast; nlinarith)
    simp only [jsMulQ, Option.map, toInt16Val, encSpecSample]
    rw [if_neg hneg, int16_wrap_eq _ (by omega) (by omega)]

/-- Claim C7: the transport conversion maps each sample independently and
in order — so the output has exactly the input's length, an empty buffer
yields an empty payload, and every output entry is the specification's
clamp-to-[-1,1]-then-scale encoding (negatives by 0x8000, non-negatives
by 0x7fff) of the corresponding input sample. -/
theorem c7_toInt16_encoding (buf : List ℚ) :
    toInt16 [] = [] ∧
    (toInt16 (buf.map some)).length = buf.length ∧
    toInt16 (buf.map some) = buf.map encSpecSample := by
  have hmain : toInt16 (buf.map some) = buf.map encSpecSample := by
    induction buf with
    | nil => rfl
    | cons q qs ih =>
      simp only [List.map_cons, toInt16, List.map] at ih ⊢
      rw [ih]
      congr 1
      exact toInt16_elem q
  exact ⟨rfl, by rw [hmain]; simp, hmain⟩

/-- The sum of squares of an all-zero block is zero. -/
theorem sumSquares_replicate_zero (n : ℕ) :
    sumSquares (List.replicate n (some 0)) = some 0 := by
  induction n with
  | zero => rfl
  | succ k ih => simp [List.replicate_succ, sumSquares, ih]

/-- The rms of a nonempty all-zero block is zero. -/
theorem rmsOf_replicate_zero (n : ℕ) (h : 0 < n) :
    rmsOf (List.replicate n (some 0)) = some 0 := by
  simp only [rmsOf, sumSquares_replicate_zero, List.length_replicate]
  rw [if_neg (Nat.pos_iff_ne_zero.mp h)]
  norm_num

set_option maxHeartbeats 1000000 in
/-- Claim C8: on an all-zero block of any positive length, the level
computation `20 * log10(rms + 1e-10)` returns the finite value -200 dB
exactly (in particular a finite `some` value of at most -200, never NaN —
`none` — and never an infinity, which no `some` value represents). -/
theorem c8_zero_block_level (n : ℕ) (h : 0 < n) :
    dbOf (List.replicate n (some 0)) = some (-200) := by
  have hpow : (10 : ℝ) ^ (10 : ℝ) = (10 : ℝ) ^ (10 : ℕ) := by
    have h1 : ((10 : ℕ) : ℝ) = (10 : ℝ) := by norm_num
    calc (10 : ℝ) ^ (10 : ℝ) = (10 : ℝ) ^ (((10 : ℕ) : ℝ)) := by rw [h1]
      _ = (10 : ℝ) ^ (10 : ℕ) := Real.rpow_natCast 10 10
  have harg : (0 : ℝ) + 1 / 10 ^ 10 = (10 : ℝ) ^ (-10 : ℝ) := by
    rw [Real.rpow_neg (by norm_num), hpow]
    norm_num
  simp only [dbOf, rmsOf_replicate_zero n h]
  rw [if_neg (by norm_num), harg, Real.logb_rpow (by norm_num) (by norm_num)]
  norm_num

/-- Witness for `c8_zero_block_level` at a full 4096-sample zero block. -/
theorem c8_zero_block_level_witness :
    dbOf (List.replicate 4096 (some 0)) = some (-200) :=
  c8_zero_block_level 4096 (by decide)
